import Mathlib

/-!
Shallow embedding of the Ship24 package-tracking integration
(custom_components/ship24): the response normalizer (ship24/adapter.py),
the provider client retry and lookup logic (ship24/client.py), the
platform-agnostic app layer (app/api.py) and the update coordinator
(coordinator.py).  Python dictionaries are modelled by a small JSON value
type; `async` functions are modelled as pure state-passing functions;
datetimes are modelled as natural numbers produced by an abstract parser
argument that stands for the ISO-8601 / strptime parsing chain of
Ship24Adapter._parse_datetime (that chain lives entirely in the Python
standard library).
-/

/-- JSON-like values, modelling the Python dict / list / scalar payloads
that the Ship24 API returns.  Numbers are modelled as integers; none of
the embedded logic inspects numeric values beyond truthiness. -/
inductive Json where
  | null
  | bool (b : Bool)
  | num (n : Int)
  | str (s : String)
  | arr (elems : List Json)
  | obj (fields : List (String × Json))

/-- Dictionary lookup, `d[k]` when present.  On a non-object the Python
code would raise AttributeError; every use below either guards the shape
or sits inside a try / except, and the claims only quantify over inputs
where the shapes agree. -/
def Json.lookup (j : Json) (k : String) : Option Json :=
  match j with
  | .obj fields => (fields.find? (fun kv => kv.1 == k)).map (fun kv => kv.2)
  | _ => none

/-- Python `d.get(k, default)`. -/
def Json.getD (j : Json) (k : String) (d : Json) : Json :=
  (j.lookup k).getD d

/-- Python `d.get(k)`, whose missing-key result None is modelled as
`Json.null`. -/
def Json.getJ (j : Json) (k : String) : Json :=
  (j.lookup k).getD Json.null

/-- Python truthiness of a JSON value: None, False, 0, empty string,
empty list and empty dict are falsy. -/
def jsonTruthy : Json → Bool
  | .null => false
  | .bool b => b
  | .num n => n != 0
  | .str s => !s.isEmpty
  | .arr xs => !xs.isEmpty
  | .obj fs => !fs.isEmpty

/-- Python `a or b` on JSON values. -/
def jsonOr (a b : Json) : Json :=
  if jsonTruthy a then a else b

/-- A truthy string, the shape Python code such as
`if not status_milestone:` followed by `status_milestone.lower()`
requires.  Truthy non-string values would raise inside the Python
functions using this (and every such call site is either unreachable for
them or converts the raised error to the same fallback); they are
modelled as absent. -/
def asTruthyStr : Json → Option String
  | .str s => if s.isEmpty then none else some s
  | _ => none

/-- A plain optional string, for fields assigned directly from
`d.get(k)` into an `Optional[str]` slot (carrier codes, tracker id,
event location).  Non-string values are modelled as absent. -/
def asStr : Json → Option String
  | .str s => some s
  | _ => none

/-- Ship24Adapter._parse_datetime: `pd` abstracts the
datetime.fromisoformat call (with a trailing Z rewritten to +00:00)
followed by the strptime fallback patterns, all of which live in the
Python standard library; the repository function returns None for a
falsy argument, and every parse failure on a non-string argument is
caught and also yields None. -/
def parse_datetime (pd : String → Option Nat) (j : Json) : Option Nat :=
  match j with
  | .str s => if s.isEmpty then none else pd s
  | _ => none

def STATUS_PENDING : String := "pending"

def STATUS_IN_TRANSIT : String := "in_transit"

def STATUS_OUT_FOR_DELIVERY : String := "out_for_delivery"

def STATUS_DELIVERED : String := "delivered"

def STATUS_EXCEPTION : String := "exception"

def STATUS_UNKNOWN : String := "unknown"

/-- Substring test on character lists, modelling the Python `in`
operator on strings. -/
def listContainsSub : List Char → List Char → Bool
  | [], pat => pat.isEmpty
  | c :: t, pat => pat.isPrefixOf (c :: t) || listContainsSub t pat

/-- Python `pat in s` for strings. -/
def strContains (s pat : String) : Bool :=
  listContainsSub s.toList pat.toList

/-- Ship24Adapter._map_status_milestone: fixed milestone lookup table,
then a statusCode substring override. -/
def map_status_milestone (status_milestone status_code : Json) : String × String :=
  match asTruthyStr status_milestone with
  | none => (STATUS_UNKNOWN, "Unknown")
  | some m =>
    let ml := m.toLower
    let base : String × String :=
      if ml = "info_received" then (STATUS_PENDING, "Info Received")
      else if ml = "in_transit" then (STATUS_IN_TRANSIT, "In Transit")
      else if ml = "out_for_delivery" then (STATUS_OUT_FOR_DELIVERY, "Out for Delivery")
      else if ml = "delivered" then (STATUS_DELIVERED, "Delivered")
      else if ml = "exception" then (STATUS_EXCEPTION, "Exception")
      else if ml = "failed_attempt" then (STATUS_EXCEPTION, "Failed Attempt")
      else if ml = "available_for_pickup" then (STATUS_IN_TRANSIT, "Available for Pickup")
      else (STATUS_UNKNOWN, m)
    match asTruthyStr status_code with
    | none => base
    | some c =>
      let cl := c.toLower
      if strContains cl "delivery_delivered" then (STATUS_DELIVERED, "Delivered")
      else if strContains cl "delivery_out_for_delivery" then (STATUS_OUT_FOR_DELIVERY, "Out for Delivery")
      else if strContains cl "exception" || strContains cl "failed" then (STATUS_EXCEPTION, "Exception")
      else base

/-- app/models.py TrackingEvent.  Timestamps are the abstract datetime
values produced by the parser; Ship24 events never populate
latitude / longitude (the adapter always passes None). -/
structure TrackingEvent where
  timestamp : Nat
  location : Option String
  status : String
  status_text : String
  description : String
  latitude : Option Int
  longitude : Option Int
  raw_data : Json

/-- app/models.py PackageData, the canonical per-shipment record. -/
structure PackageData where
  tracking_number : String
  status : String
  status_text : String
  carrier : Option String
  carrier_code : Option String
  last_update : Option Nat
  estimated_delivery : Option Nat
  location : Option String
  latitude : Option Int
  longitude : Option Int
  events : List TrackingEvent
  custom_name : Option String
  tracker_id : Option String
  raw_data : Json

/-- The priority-ordered timestamp field chain of
Ship24Adapter._parse_events (`occurrenceDatetime or occurredAt or
datetime or timestamp`). -/
def event_timestamp_field (e : Json) : Json :=
  jsonOr (e.getJ "occurrenceDatetime")
    (jsonOr (e.getJ "occurredAt")
      (jsonOr (e.getJ "datetime") (e.getJ "timestamp")))

/-- Ship24Adapter._parse_events: keep the events with a parseable
timestamp, build TrackingEvent values, then sort ascending by
timestamp.  Python `events.sort(key=lambda e: e.timestamp)` is a stable
ascending sort; it is modelled by the stable insertionSort with the
non-strict key order, which produces the identical list. -/
def parse_events (pd : String → Option Nat) (events_data : List Json) : List TrackingEvent :=
  let collected := events_data.filterMap (fun event_data =>
    match parse_datetime pd (event_timestamp_field event_data) with
    | none => none
    | some ts =>
      let st := map_status_milestone (event_data.getJ "statusMilestone") (event_data.getJ "statusCode")
      let event_status_text := (asTruthyStr (event_data.getJ "status")).getD st.2
      some { timestamp := ts
             location := asStr (event_data.getJ "location")
             status := st.1
             status_text := event_status_text
             description := event_status_text
             latitude := none
             longitude := none
             raw_data := event_data })
  List.insertionSort (fun a b => a.timestamp ≤ b.timestamp) collected

/-- `tracker_data.get("data", {}) or tracker_data` in
Ship24Adapter.to_package_data. -/
def extract_data (tracker_data : Json) : Json :=
  jsonOr (tracker_data.getD "data" (Json.obj [])) tracker_data

/-- The shape dispatch of Ship24Adapter.to_package_data: a non-empty
`trackings` list wins, then a `tracking` key, else the object itself. -/
def extract_tracking (tracker_data : Json) : Json :=
  let data := extract_data tracker_data
  match data.lookup "trackings" with
  | some (Json.arr (t :: _)) => t
  | _ =>
    match data.lookup "tracking" with
    | some t => t
    | none => data

/-- `tracking.get("tracker", {})`. -/
def tracker_of (td : Json) : Json :=
  (extract_tracking td).getD "tracker" (Json.obj [])

/-- `tracking.get("shipment", {})`. -/
def shipment_of (td : Json) : Json :=
  (extract_tracking td).getD "shipment" (Json.obj [])

/-- `tracking.get("events", [])`. -/
def events_data_of (td : Json) : Json :=
  (extract_tracking td).getD "events" (Json.arr [])

/-- `events_data if isinstance(events_data, list) else []`, the argument
passed to _parse_events. -/
def events_list_of (td : Json) : List Json :=
  match events_data_of td with
  | Json.arr xs => xs
  | _ => []

/-- The carrier-code block of Ship24Adapter.to_package_data: start from
the first raw event entry (the comment in the source calls it the most
recent event), then override with the tracker-declared courierCode
whenever that field holds a non-empty list (first entry) or a string. -/
def carrier_code_of (td : Json) : Option String :=
  let events_data := events_data_of td
  let from_event : Option String :=
    if jsonTruthy events_data then
      match events_data with
      | Json.arr (e :: _) => asStr (e.getJ "courierCode")
      | _ => none
    else none
  match (tracker_of td).lookup "courierCode" with
  | some (Json.arr (c :: _)) => asStr c
  | some (Json.str s) => some s
  | _ => from_event

/-- `statistics.get("timestamps", {}) if statistics else {}`. -/
def milestone_timestamps (td : Json) : Json :=
  let statistics := (extract_tracking td).getD "statistics" (Json.obj [])
  if jsonTruthy statistics then statistics.getD "timestamps" (Json.obj []) else Json.obj []

/-- The milestone-timestamp fallback for last_update (delivered, then
out-for-delivery, then in-transit, then info-received). -/
def milestone_last_update (pd : String → Option Nat) (td : Json) : Option Nat :=
  let ts := milestone_timestamps td
  parse_datetime pd
    (jsonOr (ts.getJ "deliveredDatetime")
      (jsonOr (ts.getJ "outForDeliveryDatetime")
        (jsonOr (ts.getJ "inTransitDatetime") (ts.getJ "infoReceivedDatetime"))))

/-- Ship24Adapter.to_package_data.  A missing or falsy
tracker.trackingNumber raises ValueError, modelled as Except.error with
the exact message of the source. -/
def to_package_data (pd : String → Option Nat) (tracker_data : Json) : Except String PackageData :=
  let tracker := tracker_of tracker_data
  let shipment := shipment_of tracker_data
  match asTruthyStr (tracker.getJ "trackingNumber") with
  | none => Except.error "Missing tracking number in Ship24 response"
  | some tracking_number =>
    let st := map_status_milestone (shipment.getJ "statusMilestone") (shipment.getJ "statusCode")
    let events := parse_events pd (events_list_of tracker_data)
    let latest_event := events.getLast?
    let delivery := shipment.getD "delivery" (Json.obj [])
    Except.ok
      { tracking_number := tracking_number
        status := st.1
        status_text := st.2
        carrier := carrier_code_of tracker_data
        carrier_code := carrier_code_of tracker_data
        last_update :=
          match latest_event with
          | some e => some e.timestamp
          | none => milestone_last_update pd tracker_data
        estimated_delivery := parse_datetime pd (delivery.getJ "estimatedDeliveryDate")
        location := match latest_event with | some e => e.location | none => none
        latitude := match latest_event with | some e => e.latitude | none => none
        longitude := match latest_event with | some e => e.longitude | none => none
        events := events
        custom_name := none
        tracker_id := asStr (tracker.getJ "trackerId")
        raw_data := tracker_data }

/-- Ship24Adapter.process_webhook: take element 0 of the trackings
array, wrap it in the live-fetch envelope and reuse to_package_data; the
surrounding try / except turns any failure (including the
missing-tracking-number ValueError) into None, as does an absent or
empty trackings array. -/
def process_webhook (pd : String → Option Nat) (payload : Json) : Option PackageData :=
  match payload.getD "trackings" (Json.arr []) with
  | Json.arr (t :: _) =>
    (to_package_data pd (Json.obj [("data", Json.obj [("trackings", Json.arr [t])])])).toOption
  | _ => none

/-- Ship24Backend.get_tracker: fetch via the client then normalize, with
a try / except that converts every raised error into None.  The
`client_resp` argument is the outcome of Ship24Client.get_tracker, an ok
JSON response or a raised error. -/
def get_tracker (pd : String → Option Nat) (client_resp : Except String Json) : Option PackageData :=
  match client_resp with
  | Except.error _ => none
  | Except.ok response => (to_package_data pd response).toOption

/-- The ParcelTrackingAPI in-memory package cache
(`self._packages: dict[str, PackageData]`), modelled as an
insertion-ordered association list exactly like a Python dict. -/
def cache_get (c : List (String × PackageData)) (tn : String) : Option PackageData :=
  (c.find? (fun kv => kv.1 == tn)).map (fun kv => kv.2)

/-- `self._packages[tn] = p`: replace in place when the key exists,
append otherwise (Python dict insertion-order semantics). -/
def cache_set (c : List (String × PackageData)) (tn : String) (p : PackageData) : List (String × PackageData) :=
  match c with
  | [] => [(tn, p)]
  | kv :: rest => if kv.1 == tn then (tn, p) :: rest else kv :: cache_set rest tn p

/-- ParcelTrackingAPI.update_package.  `backend_result` is the value
returned by Ship24Backend.get_tracker; on a record, the custom name of
any previously cached record for the same tracking number is copied
forward before the cache entry is overwritten.  Returns the result and
the updated cache. -/
def update_package (backend_result : Option PackageData) (cache : List (String × PackageData)) (tn : String) : Option PackageData × List (String × PackageData) :=
  match backend_result with
  | none => (none, cache)
  | some fresh =>
    let fresh' :=
      match cache_get cache tn with
      | some old => { fresh with custom_name := old.custom_name }
      | none => fresh
    (some fresh', cache_set cache tn fresh')

/-- What Ship24Backend.process_webhook actually hands to the app layer:
the source returns `self._adapter.process_webhook(payload)` without
awaiting it, so the caller receives the coroutine object itself rather
than the adapter result.  `result` is the value the coroutine would
produce if it were awaited. -/
structure WebhookCoroutine where
  result : Option PackageData

/-- Ship24Backend.process_webhook: wraps the async adapter call in a
coroutine object that is returned unawaited. -/
def backend_process_webhook (pd : String → Option Nat) (payload : Json) : WebhookCoroutine :=
  { result := process_webhook pd payload }

/-- Python truthiness of a coroutine object: always truthy (it is a
plain object with no custom bool or len). -/
def coroutine_truthy (_ : WebhookCoroutine) : Bool :=
  true

/-- ParcelTrackingAPI.process_webhook_payload.  `package_data` is the
unawaited coroutine object from the backend; `if package_data:` is
always taken because a coroutine object is truthy, and the next line,
`package_data.tracking_number`, raises AttributeError because a
coroutine has no record attributes — so for every payload the call
raises (modelled as Except.error), nothing runs of the custom-name
carry-forward or the cache write, and the cache is left as it was. -/
def process_webhook_payload (pd : String → Option Nat) (payload : Json) (cache : List (String × PackageData)) : Except String (Option PackageData) × List (String × PackageData) :=
  let package_data := backend_process_webhook pd payload
  if coroutine_truthy package_data then
    (Except.error "AttributeError: coroutine object has no attribute tracking_number", cache)
  else
    (Except.ok none, cache)

/-- ParcelTrackingAPI.get_package.  `backend_result` is what
Ship24Backend.get_tracker would return if consulted.  The final Bool
records whether the backend fetch line ran. -/
def get_package (backend_result : Option PackageData) (cache : List (String × PackageData)) (tn : String) : Option PackageData × List (String × PackageData) × Bool :=
  match cache_get cache tn with
  | some p => (some p, cache, false)
  | none =>
    match backend_result with
    | some p => (some p, cache_set cache tn p, true)
    | none => (none, cache, true)

/-- The webhook-processing core of async_handle_webhook in __init__.py,
after payload parsing: call process_webhook_payload inside try / except.
A raised error is caught and answered with HTTP 500; a returned record
would be checked against the coordinator watch list (unwatched: no
refresh, still HTTP 200) and a null result answered 200 — these two
branches mirror the source but are unreachable while the backend
returns its coroutine unawaited.  Result: (HTTP status, whether
coordinator.async_request_refresh is triggered, package cache after the
call, watch list after the call — the handler never mutates the watch
list). -/
def handle_webhook (pd : String → Option Nat) (payload : Json) (cache : List (String × PackageData)) (watch : List String) : Nat × Bool × List (String × PackageData) × List String :=
  match process_webhook_payload pd payload cache with
  | (Except.error _, cache1) => (500, false, cache1, watch)
  | (Except.ok (some p), cache1) =>
    if watch.contains p.tracking_number then (200, true, cache1, watch)
    else (200, false, cache1, watch)
  | (Except.ok none, cache1) => (200, false, cache1, watch)

/-- Ship24DataUpdateCoordinator._is_retryable_error: keyword search in
the lowercased rendering of the exception. -/
def is_retryable_error (err : String) : Bool :=
  let e := err.toLower
  strContains e "timeout" || strContains e "dns" || strContains e "connection" ||
    strContains e "network" || strContains e "resolve" || strContains e "cannot connect"

/-- Outcome of one `await self.api.update_package(tn)` call inside the
coordinator sweep: returned normally (with a record or None), or raised
an exception whose string rendering is `msg`. -/
inductive FetchOutcome where
  | ok (package : Option PackageData)
  | raised (msg : String)

/-- Loop state of Ship24DataUpdateCoordinator._async_update_data. -/
structure SweepAcc where
  packages : List (String × PackageData)
  error_count : Nat
  retryable_error_count : Nat
  last_error : Option String

/-- The per-item loop of _async_update_data: record successes, count and
classify failures, keep the latest per-item error message, and continue
with the remaining tracking numbers. -/
def sweep_loop (fetch : String → FetchOutcome) : List String → SweepAcc → SweepAcc
  | [], acc => acc
  | tn :: rest, acc =>
    match fetch tn with
    | FetchOutcome.ok (some p) =>
      sweep_loop fetch rest { acc with packages := cache_set acc.packages tn p }
    | FetchOutcome.ok none => sweep_loop fetch rest acc
    | FetchOutcome.raised msg =>
      sweep_loop fetch rest
        { acc with
          error_count := acc.error_count + 1
          retryable_error_count :=
            acc.retryable_error_count + (if is_retryable_error msg then 1 else 0)
          last_error := some ("Error updating " ++ tn ++ ": " ++ msg) }

/-- Result of one sweep: the UpdateFailed raise is modelled as
Except.error; last_message and last_error mirror the coordinator
fields after the call. -/
structure SweepResult where
  result : Except String (List (String × PackageData))
  last_message : Option String
  last_error : Option String

/-- Ship24DataUpdateCoordinator._async_update_data: iterate the watch
list with per-item isolation, then apply the outcome policy; UpdateFailed
is raised exactly when the final check
`len(packages) == 0 and retryable_error_count < error_count` fires,
which is precisely the fall-through else branch of the message chain. -/
def async_update_data (fetch : String → FetchOutcome) (watch : List String) (prev_error : Option String) : SweepResult :=
  let acc := sweep_loop fetch watch
    { packages := [], error_count := 0, retryable_error_count := 0, last_error := prev_error }
  let n := acc.packages.length
  if acc.error_count = 0 then
    { result := Except.ok acc.packages
      last_message := some ("Successfully updated " ++ toString n ++ " packages")
      last_error := none }
  else if 0 < acc.packages.length then
    { result := Except.ok acc.packages
      last_message := some ("Updated " ++ toString n ++ " packages, " ++ toString acc.error_count ++ " errors")
      last_error := acc.last_error }
  else if acc.retryable_error_count = acc.error_count then
    { result := Except.ok acc.packages
      last_message := some ("Temporary network issues: " ++ toString acc.error_count ++ " packages failed (will retry)")
      last_error := acc.last_error }
  else
    { result := Except.error ("Failed to update packages: " ++ toString acc.error_count ++ " errors")
      last_message := some ("Failed to update packages: " ++ toString acc.error_count ++ " errors")
      last_error := some ("Failed to update packages: " ++ toString acc.error_count ++ " errors") }

/-- Retry bound of Ship24Client._request (`for attempt in
range(MAX_RETRIES)`). -/
def MAX_RETRIES : Nat := 3

/-- Base backoff delay in seconds. -/
def RETRY_DELAY_BASE : Nat := 2

/-- Outcome of one attempt of the HTTP request inside
Ship24Client._request: a JSON response, or a raised exception.  The
`retryable` flag of a failure is `isinstance(err, aiohttp.ClientError)
and self._is_retryable_error(err)`; a non-ClientError exception behaves
exactly like a non-retryable ClientError (raised immediately). -/
inductive AttemptOutcome where
  | ok (response : Json)
  | failed (retryable : Bool) (msg : String)

/-- The retry loop of Ship24Client._request.  `fuel` counts the
iterations left in `range(MAX_RETRIES)` (the fuel-zero case is the
unreachable fall-through after the loop); `attempt` is the loop index;
`delays` collects the asyncio.sleep backoff delays in order.  A
retryable failure with attempts left sleeps
RETRY_DELAY_BASE * 2 ^ attempt seconds and retries; anything else
surfaces immediately. -/
def request_go (attempts : Nat → AttemptOutcome) : Nat → Nat → List Nat → Except String Json × List Nat
  | 0, _, delays => (Except.error "unreachable after retry loop", delays)
  | fuel + 1, attempt, delays =>
    match attempts attempt with
    | AttemptOutcome.ok v => (Except.ok v, delays)
    | AttemptOutcome.failed r msg =>
      if r && decide (attempt < MAX_RETRIES - 1) then
        request_go attempts fuel (attempt + 1) (delays ++ [RETRY_DELAY_BASE * 2 ^ attempt])
      else (Except.error msg, delays)

/-- Ship24Client._request viewed as its retry behaviour: the final
outcome together with the backoff delays slept, for a given sequence of
per-attempt outcomes.  All retry state is local to this one call. -/
def request (attempts : Nat → AttemptOutcome) : Except String Json × List Nat :=
  request_go attempts MAX_RETRIES 0 []

/-- Ship24Client.get_trackers_list: unwrap data.trackers and keep only
the active trackers (isSubscribed is True and isTracked is True); the
surrounding try / except converts every failure of the listing call
into an empty list.  `resp` is the outcome of the GET /trackers
request. -/
def get_trackers_list (resp : Except String Json) : List Json :=
  match resp with
  | Except.error _ => []
  | Except.ok response =>
    match (response.getD "data" (Json.obj [])).lookup "trackers" with
    | some (Json.arr trackers) =>
      trackers.filter (fun t =>
        (match t.lookup "isSubscribed" with
         | some (Json.bool true) => true
         | _ => false) &&
        (match t.lookup "isTracked" with
         | some (Json.bool true) => true
         | _ => false))
    | _ => []

/-- Ship24Client.find_tracker: linear search of the tracker list by
trackingNumber equality. -/
def find_tracker (resp : Except String Json) (tracking_number : String) : Option Json :=
  (get_trackers_list resp).find? (fun t =>
    match t.lookup "trackingNumber" with
    | some (Json.str s) => s == tracking_number
    | _ => false)

/-- Which provider call Ship24Client.create_tracker issues after its
find_tracker lookup. -/
inductive CreateAction where
  | fetch_existing
  | create_new

/-- The decision of Ship24Client.create_tracker: an existing tracker is
fetched via the search-results endpoint, otherwise a POST
/trackers/track create call is issued. -/
def create_tracker_action (list_resp : Except String Json) (tracking_number : String) : CreateAction :=
  match find_tracker list_resp tracking_number with
  | some _ => CreateAction.fetch_existing
  | none => CreateAction.create_new

theorem cache_get_set_self (c : List (String × PackageData)) (tn : String) (p : PackageData) :
    cache_get (cache_set c tn p) tn = some p := by
  induction c with
  | nil => simp [cache_set, cache_get, List.find?]
  | cons kv rest ih =>
    simp only [cache_set]
    by_cases h : kv.1 == tn
    · simp [h, cache_get, List.find?]
    · simp only [h, if_false]
      simpa [cache_get, List.find?, h] using ih

theorem cache_set_ne_nil (c : List (String × PackageData)) (tn : String) (p : PackageData) :
    cache_set c tn p ≠ [] := by
  cases c with
  | nil => simp [cache_set]
  | cons kv rest =>
    simp only [cache_set]
    by_cases h : kv.1 == tn <;> simp [h]

/-- Concrete stand-in for the datetime parsing chain in witnesses and
counterexamples: a fixed table of timestamp literals mapped to
instants; everything else fails to parse. -/
def pd0 : String → Option Nat := fun s =>
  if s = "1" then some 1
  else if s = "2" then some 2
  else if s = "3" then some 3
  else if s = "5" then some 5
  else none

/-- A minimal PackageData value used to build witness inputs. -/
def mkPackage (tn : String) : PackageData :=
  { tracking_number := tn
    status := "unknown"
    status_text := "Unknown"
    carrier := none
    carrier_code := none
    last_update := none
    estimated_delivery := none
    location := none
    latitude := none
    longitude := none
    events := []
    custom_name := none
    tracker_id := none
    raw_data := Json.null }

/-- Claim C3: for every tracking number with a cached record carrying a
custom name, a successful update_package returns and caches a record
whose custom_name equals the prior cached custom name, even though the
fresh record produced by normalization carries none. -/
theorem update_package_preserves_custom_name
    (cache : List (String × PackageData)) (tn nm : String) (old fresh : PackageData)
    (h1 : cache_get cache tn = some old)
    (h2 : old.custom_name = some nm)
    (_h3 : fresh.custom_name = none) :
    (update_package (some fresh) cache tn).1 = some { fresh with custom_name := some nm } ∧
    cache_get (update_package (some fresh) cache tn).2 tn = some { fresh with custom_name := some nm } := by
  constructor
  · simp [update_package, h1, h2]
  · simp [update_package, h1, h2, cache_get_set_self]

/-- Witness for C3: a cached record named "Birthday gift" keeps that
name through a refresh that returns a fresh delivered record. -/
theorem update_package_preserves_custom_name_witness :
    (update_package (some { mkPackage "TN" with status := "delivered" })
        [("TN", { mkPackage "TN" with custom_name := some "Birthday gift" })] "TN").1 =
      some { { mkPackage "TN" with status := "delivered" } with custom_name := some "Birthday gift" } ∧
    cache_get (update_package (some { mkPackage "TN" with status := "delivered" })
        [("TN", { mkPackage "TN" with custom_name := some "Birthday gift" })] "TN").2 "TN" =
      some { { mkPackage "TN" with status := "delivered" } with custom_name := some "Birthday gift" } :=
  update_package_preserves_custom_name
    [("TN", { mkPackage "TN" with custom_name := some "Birthday gift" })]
    "TN" "Birthday gift"
    { mkPackage "TN" with custom_name := some "Birthday gift" }
    { mkPackage "TN" with status := "delivered" }
    rfl rfl rfl

/-- Claim C7: normalizing a raw tracker object lacking
tracker.trackingNumber yields the normalization error and no partial
record; no default tracking number is substituted. -/
theorem to_package_data_missing_tracking_number_fails
    (pd : String → Option Nat) (td : Json)
    (h : (tracker_of td).lookup "trackingNumber" = none) :
    to_package_data pd td = Except.error "Missing tracking number in Ship24 response" := by
  simp [to_package_data, Json.getJ, h, asTruthyStr]

/-- Witness for C7: a tracker object with an empty tracker sub-object. -/
theorem to_package_data_missing_tracking_number_fails_witness :
    to_package_data pd0 (Json.obj [("tracker", Json.obj [("trackerId", Json.str "t-1")])]) =
      Except.error "Missing tracking number in Ship24 response" :=
  to_package_data_missing_tracking_number_fails pd0
    (Json.obj [("tracker", Json.obj [("trackerId", Json.str "t-1")])]) rfl

/-- Claim C8: Ship24Backend.get_tracker converts both a raised client
error and a normalization failure into None, so update_package returns
None and leaves the cache exactly as it was; it raises nothing for
provider or normalization failures. -/
theorem get_tracker_failure_leaves_cache_unchanged :
    (∀ (pd : String → Option Nat) (e : String) (cache : List (String × PackageData)) (tn : String),
      update_package (get_tracker pd (Except.error e)) cache tn = (none, cache)) ∧
    (∀ (pd : String → Option Nat) (j : Json) (msg : String) (cache : List (String × PackageData)) (tn : String),
      to_package_data pd j = Except.error msg →
      update_package (get_tracker pd (Except.ok j)) cache tn = (none, cache)) := by
  constructor
  · intro pd e cache tn
    rfl
  · intro pd j msg cache tn h
    simp [update_package, get_tracker, h, Except.toOption]

/-- Witness for C8: a raised provider error and a payload that fails
normalization both leave a nonempty cache untouched and return None. -/
theorem get_tracker_failure_leaves_cache_unchanged_witness :
    update_package (get_tracker pd0 (Except.error "Cannot connect to host"))
        [("A", mkPackage "A")] "A" = (none, [("A", mkPackage "A")]) ∧
    update_package (get_tracker pd0 (Except.ok (Json.obj [])))
        [("A", mkPackage "A")] "A" = (none, [("A", mkPackage "A")]) :=
  ⟨get_tracker_failure_leaves_cache_unchanged.1 pd0 "Cannot connect to host" [("A", mkPackage "A")] "A",
   get_tracker_failure_leaves_cache_unchanged.2 pd0 (Json.obj [])
     "Missing tracking number in Ship24 response" [("A", mkPackage "A")] "A" rfl⟩

/-- Claim C9: when the tracker-list call fails, get_trackers_list
returns the empty list instead of propagating, find_tracker therefore
returns None for every identifier, and create_tracker consequently
decides to issue the create call even when a tracker for that
identifier already exists upstream (the failed listing hides it). -/
theorem trackers_list_failure_masks_existing_tracker (e tn : String) :
    get_trackers_list (Except.error e) = [] ∧
    find_tracker (Except.error e) tn = none ∧
    create_tracker_action (Except.error e) tn = CreateAction.create_new :=
  ⟨rfl, rfl, rfl⟩

/-- Claim C10: a tracking number present in the cache is answered from
the cache with no backend call; only a cache miss consults the backend,
and a successfully fetched record is inserted into the cache. -/
theorem get_package_cache_hit_skips_backend :
    (∀ (br : Option PackageData) (cache : List (String × PackageData)) (tn : String) (p : PackageData),
      cache_get cache tn = some p → get_package br cache tn = (some p, cache, false)) ∧
    (∀ (br : Option PackageData) (cache : List (String × PackageData)) (tn : String),
      cache_get cache tn = none → (get_package br cache tn).2.2 = true) ∧
    (∀ (q : PackageData) (cache : List (String × PackageData)) (tn : String),
      cache_get cache tn = none →
      get_package (some q) cache tn = (some q, cache_set cache tn q, true)) := by
  refine ⟨?_, ?_, ?_⟩
  · intro br cache tn p h
    simp [get_package, h]
  · intro br cache tn h
    cases br <;> simp [get_package, h]
  · intro q cache tn h
    simp [get_package, h]

/-- Witness for C10: a cache hit is served without the backend even when
the backend would answer differently; a miss fetches and caches. -/
theorem get_package_cache_hit_skips_backend_witness :
    get_package (some (mkPackage "B")) [("A", mkPackage "A")] "A" =
      (some (mkPackage "A"), [("A", mkPackage "A")], false) ∧
    get_package (some (mkPackage "B")) [("A", mkPackage "A")] "B" =
      (some (mkPackage "B"), [("A", mkPackage "A"), ("B", mkPackage "B")], true) :=
  ⟨get_package_cache_hit_skips_backend.1 (some (mkPackage "B")) [("A", mkPackage "A")] "A" (mkPackage "A") rfl,
   get_package_cache_hit_skips_backend.2.2 (mkPackage "B") [("A", mkPackage "A")] "B" rfl⟩

/-- Counterexample for C5: with every attempt failing retryably, the
call sleeps 2 s and then 4 s and surfaces the error after the third
attempt; the backoff sequence 2 s, 4 s, 8 s claimed for a single call
never occurs, because `range(MAX_RETRIES)` allows only two retries. -/
theorem request_backoff_never_reaches_8s :
    request (fun _ => AttemptOutcome.failed true "Connection timeout") =
      (Except.error "Connection timeout", [2, 4]) ∧
    ([2, 4] : List Nat) ≠ [2, 4, 8] := by
  constructor
  · rfl
  · decide

/-- Claim C5 as amended: one call makes at most 3 attempts; after failed
attempt 0 it sleeps RETRY_DELAY_BASE * 2 ^ 0 = 2 s, after failed attempt
1 it sleeps RETRY_DELAY_BASE * 2 ^ 1 = 4 s, and the third failure
surfaces immediately whatever its class, so the slept delays are a
prefix of [2, 4]; a non-retryable failure propagates at once with no
sleep; all retry state is local to the one call (the attempts sequence
fully determines the outcome). -/
theorem request_retry_policy (attempts : Nat → AttemptOutcome) :
    (∀ v, attempts 0 = AttemptOutcome.ok v →
      request attempts = (Except.ok v, [])) ∧
    (∀ msg, attempts 0 = AttemptOutcome.failed false msg →
      request attempts = (Except.error msg, [])) ∧
    (∀ m0 v, attempts 0 = AttemptOutcome.failed true m0 →
      attempts 1 = AttemptOutcome.ok v →
      request attempts = (Except.ok v, [2])) ∧
    (∀ m0 msg, attempts 0 = AttemptOutcome.failed true m0 →
      attempts 1 = AttemptOutcome.failed false msg →
      request attempts = (Except.error msg, [2])) ∧
    (∀ m0 m1 v, attempts 0 = AttemptOutcome.failed true m0 →
      attempts 1 = AttemptOutcome.failed true m1 →
      attempts 2 = AttemptOutcome.ok v →
      request attempts = (Except.ok v, [2, 4])) ∧
    (∀ m0 m1 b msg, attempts 0 = AttemptOutcome.failed true m0 →
      attempts 1 = AttemptOutcome.failed true m1 →
      attempts 2 = AttemptOutcome.failed b msg →
      request attempts = (Except.error msg, [2, 4])) := by
  refine ⟨?_, ?_, ?_, ?_, ?_, ?_⟩
  · intro v h0
    simp [request, request_go, h0]
  · intro msg h0
    simp [request, request_go, h0]
  · intro m0 v h0 h1
    simp [request, request_go, h0, h1, MAX_RETRIES, RETRY_DELAY_BASE]
  · intro m0 msg h0 h1
    simp [request, request_go, h0, h1, MAX_RETRIES, RETRY_DELAY_BASE]
  · intro m0 m1 v h0 h1 h2
    simp [request, request_go, h0, h1, h2, MAX_RETRIES, RETRY_DELAY_BASE]
  · intro m0 m1 b msg h0 h1 h2
    simp [request, request_go, h0, h1, h2, MAX_RETRIES, RETRY_DELAY_BASE]

/-- Witness for C5 (amended): a non-retryable authentication failure on
the first attempt propagates immediately with no backoff sleep. -/
theorem request_retry_policy_witness :
    request (fun _ => AttemptOutcome.failed false "401 Unauthorized") =
      (Except.error "401 Unauthorized", []) :=
  (request_retry_policy (fun _ => AttemptOutcome.failed false "401 Unauthorized")).2.1
    "401 Unauthorized" rfl

/-- A bare tracking object whose tracker declares courierCode
["fedex"] while its (single, most recent) event carries courierCode
"ups". -/
def carrier_conflict_td : Json :=
  Json.obj
    [("tracker", Json.obj
        [("trackingNumber", Json.str "TN6"),
         ("courierCode", Json.arr [Json.str "fedex"])]),
     ("events", Json.arr
        [Json.obj
           [("occurrenceDatetime", Json.str "5"),
            ("courierCode", Json.str "ups")]])]

/-- Counterexample for C6: the event-derived courier code "ups" is
overridden by the tracker-declared courierCode list whenever that list
is non-empty, so the normalized carrier_code is "fedex", not the
most-recent event courier "ups" that the claim requires. -/
theorem carrier_code_tracker_overrides_event :
    (match events_data_of carrier_conflict_td with
     | Json.arr (e :: _) => asStr (e.getJ "courierCode")
     | _ => none) = some "ups" ∧
    (to_package_data pd0 carrier_conflict_td).map (fun p => p.carrier_code) =
      Except.ok (some "fedex") ∧
    (some "fedex" : Option String) ≠ some "ups" := by
  refine ⟨rfl, rfl, by decide⟩

/-- Claim C6 as amended: the tracker-declared courierCode takes
precedence whenever it is present as a non-empty list (first entry) or
as a string; only otherwise does the courier code of the first raw
event entry (the newest, in the order Ship24 returns events) stand. -/
theorem carrier_code_precedence
    (pd : String → Option Nat) (td : Json) (p : PackageData)
    (h : to_package_data pd td = Except.ok p) :
    p.carrier_code = carrier_code_of td ∧
    (∀ c rest, (tracker_of td).lookup "courierCode" = some (Json.arr (Json.str c :: rest)) →
      p.carrier_code = some c) ∧
    (∀ s, (tracker_of td).lookup "courierCode" = some (Json.str s) →
      p.carrier_code = some s) ∧
    ((tracker_of td).lookup "courierCode" = none →
      p.carrier_code =
        (if jsonTruthy (events_data_of td) then
          match events_data_of td with
          | Json.arr (e :: _) => asStr (e.getJ "courierCode")
          | _ => none
        else none)) := by
  have hcc : p.carrier_code = carrier_code_of td := by
    cases htn : asTruthyStr ((tracker_of td).getJ "trackingNumber") with
    | none => simp [to_package_data, htn] at h
    | some tn =>
      simp only [to_package_data, htn, Except.ok.injEq] at h
      subst h
      rfl
  refine ⟨hcc, ?_, ?_, ?_⟩
  · intro c rest hc
    rw [hcc]
    simp [carrier_code_of, hc, asStr]
  · intro s hs
    rw [hcc]
    simp [carrier_code_of, hs]
  · intro hn
    rw [hcc]
    simp [carrier_code_of, hn]

/-- Witness for C6 (amended): on the conflicting payload the
tracker-declared list entry "fedex" wins. -/
theorem carrier_code_precedence_witness :
    ((to_package_data pd0 carrier_conflict_td).toOption.map (fun p => p.carrier_code) =
      some (some "fedex")) := by
  have hs : (to_package_data pd0 carrier_conflict_td).toOption.isSome = true := rfl
  have h := carrier_code_precedence pd0 carrier_conflict_td
    ((to_package_data pd0 carrier_conflict_td).toOption.get hs) rfl
  have h2 := h.2.1 "fedex" [] rfl
  rw [Option.map_eq_some']
  exact ⟨_, (Option.some_get hs).symm, h2⟩

/-- A single-shipment webhook tracking entry for an identifier that no
watch list below contains. -/
def unwatched_tracking : Json :=
  Json.obj [("tracker", Json.obj [("trackingNumber", Json.str "AA111")])]

/-- The webhook payload wrapping that entry. -/
def unwatched_payload : Json :=
  Json.obj [("trackings", Json.arr [unwatched_tracking])]

/-- Counterexample for C1: with an empty watch list and an empty cache,
process_webhook_payload on the payload for the unwatched identifier
"AA111" does not return null — it raises AttributeError (the backend
returned its coroutine unawaited), and the handler answers HTTP 500,
not an accepted no-op.  The cache and watch list do stay unchanged,
but only because the call dies before reaching the cache write. -/
theorem process_webhook_payload_raises_not_null :
    (([] : List String).contains "AA111" = false) ∧
    (process_webhook_payload pd0 unwatched_payload []).1 =
      Except.error "AttributeError: coroutine object has no attribute tracking_number" ∧
    (process_webhook_payload pd0 unwatched_payload []).1 ≠
      Except.ok (none : Option PackageData) ∧
    (process_webhook_payload pd0 unwatched_payload []).2 = [] ∧
    handle_webhook pd0 unwatched_payload [] [] = (500, false, [], []) := by
  refine ⟨rfl, rfl, by simp [process_webhook_payload, coroutine_truthy], rfl, rfl⟩

/-- Claim C1 as amended: for every webhook payload, watched or not,
process_webhook_payload raises AttributeError — the backend returns the
adapter coroutine without awaiting it, the truthy coroutine object has
no tracking_number attribute — so it never returns a record or null and
never writes the cache; the package cache and the watch list are left
exactly as they were, and the webhook handler catches the error and
answers HTTP 500 without triggering a coordinator refresh. -/
theorem process_webhook_payload_always_raises
    (pd : String → Option Nat) (payload : Json) (cache : List (String × PackageData))
    (watch : List String) :
    (process_webhook_payload pd payload cache).1 =
      Except.error "AttributeError: coroutine object has no attribute tracking_number" ∧
    (process_webhook_payload pd payload cache).2 = cache ∧
    handle_webhook pd payload cache watch = (500, false, cache, watch) :=
  ⟨rfl, rfl, rfl⟩

/-- Witness for C1 (amended): on the concrete unwatched payload with a
nonempty cache and watch list, the call raises, nothing changes, and
the handler answers 500 with no refresh. -/
theorem process_webhook_payload_always_raises_witness :
    (process_webhook_payload pd0 unwatched_payload [("A", mkPackage "A")]).1 =
      Except.error "AttributeError: coroutine object has no attribute tracking_number" ∧
    (process_webhook_payload pd0 unwatched_payload [("A", mkPackage "A")]).2 =
      [("A", mkPackage "A")] ∧
    handle_webhook pd0 unwatched_payload [("A", mkPackage "A")] ["A"] =
      (500, false, [("A", mkPackage "A")], ["A"]) :=
  process_webhook_payload_always_raises pd0 unwatched_payload [("A", mkPackage "A")] ["A"]

/-- Claim C4: for every raw tracking object, the normalized events
sequence is non-decreasing by timestamp (whatever order the raw events
arrived in), it is exactly the parse of the raw event list, and
location, latitude, longitude and last_update derive from the last
element of that sorted sequence — with last_update falling back to the
milestone timestamps (and the location fields to null) when no event
survives. -/
theorem to_package_data_events_sorted
    (pd : String → Option Nat) (td : Json) (p : PackageData)
    (h : to_package_data pd td = Except.ok p) :
    p.events.Pairwise (fun a b => a.timestamp ≤ b.timestamp) ∧
    p.events = parse_events pd (events_list_of td) ∧
    p.location = (match p.events.getLast? with | some e => e.location | none => none) ∧
    p.latitude = (match p.events.getLast? with | some e => e.latitude | none => none) ∧
    p.longitude = (match p.events.getLast? with | some e => e.longitude | none => none) ∧
    p.last_update = (match p.events.getLast? with
                     | some e => some e.timestamp
                     | none => milestone_last_update pd td) := by
  cases htn : asTruthyStr ((tracker_of td).getJ "trackingNumber") with
  | none => simp [to_package_data, htn] at h
  | some tn =>
    simp only [to_package_data, htn, Except.ok.injEq] at h
    subst h
    refine ⟨?_, rfl, rfl, rfl, rfl, rfl⟩
    haveI : IsTotal TrackingEvent (fun a b => a.timestamp ≤ b.timestamp) :=
      ⟨fun a b => Nat.le_total a.timestamp b.timestamp⟩
    haveI : IsTrans TrackingEvent (fun a b => a.timestamp ≤ b.timestamp) :=
      ⟨fun _ _ _ hab hbc => Nat.le_trans hab hbc⟩
    exact List.sorted_insertionSort _ _

/-- A raw event with only an occurrence datetime. -/
def bare_event (ts : String) : Json :=
  Json.obj [("occurrenceDatetime", Json.str ts)]

/-- A bare tracking object whose raw events arrive out of order
(timestamps 3, 1, 2). -/
def out_of_order_td : Json :=
  Json.obj
    [("tracker", Json.obj [("trackingNumber", Json.str "TN4")]),
     ("events", Json.arr [bare_event "3", bare_event "1", bare_event "2"])]

/-- The normalized event the adapter builds from a bare event. -/
def bare_parsed_event (ts : Nat) (raw : String) : TrackingEvent :=
  { timestamp := ts
    location := none
    status := "unknown"
    status_text := "Unknown"
    description := "Unknown"
    latitude := none
    longitude := none
    raw_data := bare_event raw }

/-- The record normalized from the out-of-order tracking object: events
sorted ascending, last_update from the (sorted) last event. -/
def out_of_order_record : PackageData :=
  { mkPackage "TN4" with
      events := [bare_parsed_event 1 "1", bare_parsed_event 2 "2", bare_parsed_event 3 "3"]
      last_update := some 3
      raw_data := out_of_order_td }

/-- Witness for C4: the reversed-and-shuffled timestamps 3, 1, 2 come
out as the non-decreasing sequence 1, 2, 3 and the derived fields come
from the last sorted event. -/
theorem to_package_data_events_sorted_witness :
    out_of_order_record.events.Pairwise (fun a b => a.timestamp ≤ b.timestamp) ∧
    out_of_order_record.events = parse_events pd0 (events_list_of out_of_order_td) ∧
    out_of_order_record.location =
      (match out_of_order_record.events.getLast? with | some e => e.location | none => none) ∧
    out_of_order_record.latitude =
      (match out_of_order_record.events.getLast? with | some e => e.latitude | none => none) ∧
    out_of_order_record.longitude =
      (match out_of_order_record.events.getLast? with | some e => e.longitude | none => none) ∧
    out_of_order_record.last_update =
      (match out_of_order_record.events.getLast? with
       | some e => some e.timestamp
       | none => milestone_last_update pd0 out_of_order_td) :=
  to_package_data_events_sorted pd0 out_of_order_td out_of_order_record rfl

/-- A fetch outcome that contributes a record to the sweep result. -/
def fetch_success (fetch : String → FetchOutcome) (tn : String) : Prop :=
  ∃ p, fetch tn = FetchOutcome.ok (some p)

/-- Whether the fetch for `tn` raised. -/
def fetch_raised (fetch : String → FetchOutcome) (tn : String) : Bool :=
  match fetch tn with
  | FetchOutcome.raised _ => true
  | _ => false

/-- Whether the fetch for `tn` raised with a retryable (transient
network) error per the coordinator classifier. -/
def fetch_raised_retryable (fetch : String → FetchOutcome) (tn : String) : Bool :=
  match fetch tn with
  | FetchOutcome.raised msg => is_retryable_error msg
  | _ => false

theorem sweep_loop_packages_eq_nil (fetch : String → FetchOutcome) (l : List String) (acc : SweepAcc) :
    (sweep_loop fetch l acc).packages = [] ↔
      (acc.packages = [] ∧ ∀ tn ∈ l, ¬ fetch_success fetch tn) := by
  induction l generalizing acc with
  | nil => simp [sweep_loop]
  | cons tn rest ih =>
    cases hf : fetch tn with
    | ok op =>
      cases op with
      | some p =>
        simp only [sweep_loop, hf]
        rw [ih]
        simp [cache_set_ne_nil, fetch_success, hf, List.forall_mem_cons]
      | none =>
        simp only [sweep_loop, hf]
        rw [ih]
        simp [fetch_success, hf, List.forall_mem_cons]
    | raised m =>
      simp only [sweep_loop, hf]
      rw [ih]
      simp [fetch_success, hf, List.forall_mem_cons]

theorem sweep_loop_error_count (fetch : String → FetchOutcome) (l : List String) (acc : SweepAcc) :
    (sweep_loop fetch l acc).error_count = acc.error_count + l.countP (fetch_raised fetch) := by
  induction l generalizing acc with
  | nil => simp [sweep_loop]
  | cons tn rest ih =>
    cases hf : fetch tn with
    | ok op =>
      cases op with
      | some p => simp [sweep_loop, hf, ih, List.countP_cons, fetch_raised]
      | none => simp [sweep_loop, hf, ih, List.countP_cons, fetch_raised]
    | raised m =>
      simp [sweep_loop, hf, ih, List.countP_cons, fetch_raised]
      omega

theorem sweep_loop_retryable_count (fetch : String → FetchOutcome) (l : List String) (acc : SweepAcc) :
    (sweep_loop fetch l acc).retryable_error_count =
      acc.retryable_error_count + l.countP (fetch_raised_retryable fetch) := by
  induction l generalizing acc with
  | nil => simp [sweep_loop]
  | cons tn rest ih =>
    cases hf : fetch tn with
    | ok op =>
      cases op with
      | some p => simp [sweep_loop, hf, ih, List.countP_cons, fetch_raised_retryable]
      | none => simp [sweep_loop, hf, ih, List.countP_cons, fetch_raised_retryable]
    | raised m =>
      cases hr : is_retryable_error m <;>
        · simp [sweep_loop, hf, ih, List.countP_cons, fetch_raised_retryable, hr]
          try omega

theorem sweep_loop_last_error_isSome_mono (fetch : String → FetchOutcome) (l : List String)
    (acc : SweepAcc) (h : acc.last_error.isSome = true) :
    (sweep_loop fetch l acc).last_error.isSome = true := by
  induction l generalizing acc with
  | nil => simpa [sweep_loop] using h
  | cons tn rest ih =>
    cases hf : fetch tn with
    | ok op =>
      cases op with
      | some p =>
        simp only [sweep_loop, hf]
        exact ih _ (by simpa using h)
      | none =>
        simp only [sweep_loop, hf]
        exact ih _ h
    | raised m =>
      simp only [sweep_loop, hf]
      exact ih _ (by simp)

theorem sweep_loop_last_error_isSome_of_raised (fetch : String → FetchOutcome) (l : List String)
    (acc : SweepAcc) (h : ∃ tn ∈ l, fetch_raised fetch tn = true) :
    (sweep_loop fetch l acc).last_error.isSome = true := by
  induction l generalizing acc with
  | nil => simp at h
  | cons tn rest ih =>
    obtain ⟨x, hx, hraised⟩ := h
    rcases List.mem_cons.mp hx with rfl | hx'
    · cases hfm : fetch x with
      | ok op => simp [fetch_raised, hfm] at hraised
      | raised m =>
        simp only [sweep_loop, hfm]
        exact sweep_loop_last_error_isSome_mono fetch rest _ (by simp)
    · cases hf : fetch tn with
      | ok op =>
        cases op with
        | some p =>
          simp only [sweep_loop, hf]
          exact ih _ ⟨x, hx', hraised⟩
        | none =>
          simp only [sweep_loop, hf]
          exact ih _ ⟨x, hx', hraised⟩
      | raised m =>
        simp only [sweep_loop, hf]
        exact sweep_loop_last_error_isSome_mono fetch rest _ (by simp)

theorem countP_lt_iff_exists {α : Type} (l : List α) (p q : α → Bool)
    (himp : ∀ x, q x = true → p x = true) :
    l.countP q < l.countP p ↔ ∃ x ∈ l, p x = true ∧ q x = false := by
  induction l with
  | nil => simp
  | cons a t ih =>
    rw [List.countP_cons, List.countP_cons]
    cases hq : q a
    · cases hp : p a
      · change t.countP q < t.countP p ↔ _
        rw [ih]
        constructor
        · rintro ⟨x, hx, hpx, hqx⟩
          exact ⟨x, List.mem_cons_of_mem a hx, hpx, hqx⟩
        · rintro ⟨x, hx, hpx, hqx⟩
          rcases List.mem_cons.mp hx with rfl | hx'
          · rw [hp] at hpx
            cases hpx
          · exact ⟨x, hx', hpx, hqx⟩
      · have hle : t.countP q ≤ t.countP p :=
          List.countP_mono_left (fun x _ hx => himp x hx)
        change t.countP q < t.countP p + 1 ↔ _
        exact iff_of_true (by omega) ⟨a, List.mem_cons_self a t, hp, hq⟩
    · have hpa := himp a hq
      rw [hpa]
      change t.countP q + 1 < t.countP p + 1 ↔ _
      rw [Nat.add_lt_add_iff_right, ih]
      constructor
      · rintro ⟨x, hx, hpx, hqx⟩
        exact ⟨x, List.mem_cons_of_mem a hx, hpx, hqx⟩
      · rintro ⟨x, hx, hpx, hqx⟩
        rcases List.mem_cons.mp hx with rfl | hx'
        · rw [hq] at hqx
          cases hqx
        · exact ⟨x, hx', hpx, hqx⟩

theorem async_update_data_result_error_iff (fetch : String → FetchOutcome) (watch : List String)
    (pe : Option String) :
    (∃ e, (async_update_data fetch watch pe).result = Except.error e) ↔
      ((sweep_loop fetch watch ⟨[], 0, 0, pe⟩).packages = [] ∧
       (sweep_loop fetch watch ⟨[], 0, 0, pe⟩).retryable_error_count <
         (sweep_loop fetch watch ⟨[], 0, 0, pe⟩).error_count) := by
  have himp : ∀ x, fetch_raised_retryable fetch x = true → fetch_raised fetch x = true := by
    intro x
    cases hx : fetch x <;> simp [fetch_raised, fetch_raised_retryable, hx]
  have hle : (sweep_loop fetch watch ⟨[], 0, 0, pe⟩).retryable_error_count ≤
      (sweep_loop fetch watch ⟨[], 0, 0, pe⟩).error_count := by
    rw [sweep_loop_error_count, sweep_loop_retryable_count]
    have := List.countP_mono_left (l := watch) (fun x _ hx => himp x hx)
    simpa using this
  simp only [async_update_data]
  split_ifs with h1 h2 h3
  · constructor
    · rintro ⟨e, he⟩
      cases he
    · rintro ⟨-, hlt⟩
      omega
  · constructor
    · rintro ⟨e, he⟩
      cases he
    · rintro ⟨hp, -⟩
      rw [hp] at h2
      simp at h2
  · constructor
    · rintro ⟨e, he⟩
      cases he
    · rintro ⟨-, hlt⟩
      omega
  · refine iff_of_true ⟨_, rfl⟩ ⟨List.length_eq_zero.mp (by omega), by omega⟩

/-- Claim C2: a sweep raises a fatal UpdateFailed exactly when it
produced zero successful records and at least one per-item failure was
non-retryable; in every other case it returns its result map without
raising.  Per-item failures are caught inside the loop (the model is a
total function) and recorded: whenever any item raised, the last-error
field is populated after the sweep. -/
theorem refresh_all_fatal_iff (fetch : String → FetchOutcome) (watch : List String)
    (pe : Option String) :
    ((∃ e, (async_update_data fetch watch pe).result = Except.error e) ↔
      ((∀ tn ∈ watch, ¬ fetch_success fetch tn) ∧
       ∃ tn ∈ watch, ∃ msg, fetch tn = FetchOutcome.raised msg ∧ is_retryable_error msg = false)) ∧
    ((∃ tn ∈ watch, ∃ msg, fetch tn = FetchOutcome.raised msg) →
      (async_update_data fetch watch pe).last_error.isSome = true) := by
  have himp : ∀ x, fetch_raised_retryable fetch x = true → fetch_raised fetch x = true := by
    intro x
    cases hx : fetch x <;> simp [fetch_raised, fetch_raised_retryable, hx]
  have hbridge : ∀ tn, (fetch_raised fetch tn = true ∧ fetch_raised_retryable fetch tn = false) ↔
      ∃ msg, fetch tn = FetchOutcome.raised msg ∧ is_retryable_error msg = false := by
    intro tn
    cases hx : fetch tn with
    | ok op => simp [fetch_raised, fetch_raised_retryable, hx]
    | raised m => simp [fetch_raised, fetch_raised_retryable, hx]
  constructor
  · rw [async_update_data_result_error_iff]
    have hpack : (sweep_loop fetch watch ⟨[], 0, 0, pe⟩).packages = [] ↔
        ∀ tn ∈ watch, ¬ fetch_success fetch tn := by
      rw [sweep_loop_packages_eq_nil]
      simp
    have hcnt : (sweep_loop fetch watch ⟨[], 0, 0, pe⟩).retryable_error_count <
        (sweep_loop fetch watch ⟨[], 0, 0, pe⟩).error_count ↔
        ∃ tn ∈ watch, fetch_raised fetch tn = true ∧ fetch_raised_retryable fetch tn = false := by
      rw [sweep_loop_error_count, sweep_loop_retryable_count]
      have := countP_lt_iff_exists watch (fetch_raised fetch) (fetch_raised_retryable fetch) himp
      simpa using this
    rw [hpack, hcnt]
    exact and_congr_right fun _ =>
      exists_congr fun tn => and_congr_right fun _ => hbridge tn
  · rintro ⟨tn, htn, msg, hmsg⟩
    have hr : fetch_raised fetch tn = true := by simp [fetch_raised, hmsg]
    have hsome := sweep_loop_last_error_isSome_of_raised fetch watch ⟨[], 0, 0, pe⟩ ⟨tn, htn, hr⟩
    have herrpos : 0 < (sweep_loop fetch watch ⟨[], 0, 0, pe⟩).error_count := by
      rw [sweep_loop_error_count]
      have : 0 < watch.countP (fetch_raised fetch) :=
        List.countP_pos_iff.mpr ⟨tn, htn, hr⟩
      simpa using this
    simp only [async_update_data]
    split_ifs with h1 h2 h3
    · omega
    · exact hsome
    · exact hsome
    · rfl

/-- Three tracked identifiers where fetching the second raises a
non-retryable error and the others succeed: the spec scenario for
partial-failure isolation. -/
def sweep_demo_fetch : String → FetchOutcome := fun tn =>
  if tn = "B" then FetchOutcome.raised "418 teapot"
  else FetchOutcome.ok (some (mkPackage tn))

/-- Witness for C2: with successes present the sweep does not raise even
though a non-retryable failure occurred, and the failure is recorded in
the last-error field. -/
theorem refresh_all_fatal_iff_witness :
    (¬ ∃ e, (async_update_data sweep_demo_fetch ["A", "B", "C"] none).result = Except.error e) ∧
    (async_update_data sweep_demo_fetch ["A", "B", "C"] none).last_error.isSome = true := by
  constructor
  · intro hcontra
    have h := (refresh_all_fatal_iff sweep_demo_fetch ["A", "B", "C"] none).1.mp hcontra
    exact h.1 "A" (by simp) ⟨mkPackage "A", rfl⟩
  · exact (refresh_all_fatal_iff sweep_demo_fetch ["A", "B", "C"] none).2
      ⟨"B", by simp, "418 teapot", rfl⟩

/-- Witness for C9: a concrete failed listing call hides tracker
"AA111" and forces the create path. -/
theorem trackers_list_failure_masks_existing_tracker_witness :
    get_trackers_list (Except.error "Cannot connect to host") = [] ∧
    find_tracker (Except.error "Cannot connect to host") "AA111" = none ∧
    create_tracker_action (Except.error "Cannot connect to host") "AA111" =
      CreateAction.create_new :=
  trackers_list_failure_masks_existing_tracker "Cannot connect to host" "AA111"
